import Mathlib

/-!
Shallow embedding of `src/value/borrowed.rs` from the ion-rust repository:
the borrowed realization of the Ion value/element data model
(`BorrowedImportSource`, `BorrowedSymbolToken`, `BorrowedSequence`,
`BorrowedStruct`, `BorrowedValue`, `BorrowedElement`) together with the
accessors of its `Element` trait implementation.

Borrowed `&str` references become Lean `String`, `Vec` becomes `List`,
`Option<&T>` becomes `Option T`, and each trait method returning a boxed
iterator is embedded as the (finite) list of items the iterator yields.
-/

/-- Modelled from the spec: `IonType` is the categorical type tag of an Ion
value (the enum itself is declared outside this file's source). The tags
used by the source are `Integer`, `String`, `Symbol`, `SExpression`,
`List` and `Struct`; the remaining categories are included so that the
`Null` variant can embed a typed-null tag for every category. -/
inductive IonType where
  | Null
  | Boolean
  | Integer
  | Float
  | Decimal
  | Timestamp
  | Symbol
  | String
  | Clob
  | Blob
  | List
  | SExpression
  | Struct
deriving DecidableEq, Repr

/-- Modelled from the spec: `AnyInt` is the arbitrary-precision integer
payload, treated by this layer as an opaque payload type; embedded as a
Lean integer. -/
abbrev AnyInt : Type := Int

/-- `SymbolId` is `usize` in the source; embedded as `Nat`. -/
abbrev SymbolId : Type := Nat

/-- Embedding of `BorrowedImportSource`. -/
structure BorrowedImportSource where
  table : String
  sid : SymbolId
deriving DecidableEq, Repr

/-- `BorrowedImportSource::new`. -/
def BorrowedImportSource.new (table : String) (sid : SymbolId) : BorrowedImportSource :=
  { table := table, sid := sid }

/-- Embedding of `BorrowedSymbolToken`: three independently optional facets. -/
structure BorrowedSymbolToken where
  text : Option String
  local_sid : Option SymbolId
  source : Option BorrowedImportSource
deriving DecidableEq, Repr

/-- `BorrowedSymbolToken::new`. -/
def BorrowedSymbolToken.new (text : Option String) (local_sid : Option SymbolId)
    (source : Option BorrowedImportSource) : BorrowedSymbolToken :=
  { text := text, local_sid := local_sid, source := source }

/-- `impl From<&str> for BorrowedSymbolToken`. -/
def BorrowedSymbolToken.fromText (text : String) : BorrowedSymbolToken :=
  BorrowedSymbolToken.new (some text) none none

mutual

/-- Embedding of the `BorrowedValue` enum: the tagged union of value variants. -/
inductive BorrowedValue where
  | Null : IonType → BorrowedValue
  | Integer : AnyInt → BorrowedValue
  | String : String → BorrowedValue
  | Symbol : BorrowedSymbolToken → BorrowedValue
  | SExpression : BorrowedSequence → BorrowedValue
  | List : BorrowedSequence → BorrowedValue
  | Struct : BorrowedStruct → BorrowedValue

/-- Embedding of `BorrowedSequence`: an ordered list of child elements. -/
inductive BorrowedSequence where
  | mk : List BorrowedElement → BorrowedSequence

/-- Embedding of `BorrowedStruct`: an ordered list of (token, element) fields. -/
inductive BorrowedStruct where
  | mk : List (BorrowedSymbolToken × BorrowedElement) → BorrowedStruct

/-- Embedding of `BorrowedElement`: annotations plus a value. -/
inductive BorrowedElement where
  | mk : List BorrowedSymbolToken → BorrowedValue → BorrowedElement

end

/-- The `children` field of `BorrowedSequence`. -/
def BorrowedSequence.children : BorrowedSequence → List BorrowedElement
  | .mk cs => cs

/-- `BorrowedSequence::new`. -/
def BorrowedSequence.new (children : List BorrowedElement) : BorrowedSequence :=
  .mk children

/-- `BorrowedSequence::iter` (`Sequence` trait): the list of child
elements the boxed iterator yields, in order. -/
def BorrowedSequence.iter (s : BorrowedSequence) : List BorrowedElement :=
  s.children

/-- The `fields` field of `BorrowedStruct`. -/
def BorrowedStruct.fields : BorrowedStruct → List (BorrowedSymbolToken × BorrowedElement)
  | .mk fs => fs

/-- `BorrowedStruct::new`. -/
def BorrowedStruct.new (fields : List (BorrowedSymbolToken × BorrowedElement)) :
    BorrowedStruct :=
  .mk fields

/-- `BorrowedStruct::iter` (`Struct` trait): the list of (name, value)
pairs the boxed iterator yields, in order. The source maps `&(k, v)` to
`(&k, &v)`, which is the identity on the pair's components. -/
def BorrowedStruct.iter (s : BorrowedStruct) :
    List (BorrowedSymbolToken × BorrowedElement) :=
  s.fields.map (fun kv => match kv with | (k, v) => (k, v))

/-- The `annotations` field of `BorrowedElement`. -/
def BorrowedElement.annots : BorrowedElement → List BorrowedSymbolToken
  | .mk a _ => a

/-- The `value` field of `BorrowedElement`. -/
def BorrowedElement.value : BorrowedElement → BorrowedValue
  | .mk _ v => v

/-- `BorrowedElement::new`. -/
def BorrowedElement.new (annots : List BorrowedSymbolToken) (value : BorrowedValue) :
    BorrowedElement :=
  .mk annots value

/-- `impl From<BorrowedValue> for BorrowedElement`: constructs an element
without annotations from a value. -/
def BorrowedElement.fromValue (val : BorrowedValue) : BorrowedElement :=
  BorrowedElement.new [] val

/-- `BorrowedElement::ion_type` (`Element` trait). -/
def BorrowedElement.ion_type (e : BorrowedElement) : IonType :=
  match e.value with
  | .Null t => t
  | .Integer _ => IonType.Integer
  | .String _ => IonType.String
  | .Symbol _ => IonType.Symbol
  | .SExpression _ => IonType.SExpression
  | .List _ => IonType.List
  | .Struct _ => IonType.Struct

/-- `BorrowedElement::annotations` (`Element` trait): the list of symbol
tokens the boxed iterator yields, in order. -/
def BorrowedElement.annotationsIter (e : BorrowedElement) : List BorrowedSymbolToken :=
  e.annots

/-- `BorrowedElement::is_null` (`Element` trait). -/
def BorrowedElement.is_null (e : BorrowedElement) : Bool :=
  match e.value with
  | .Null _ => true
  | _ => false

/-- `BorrowedElement::as_any_int` (`Element` trait). -/
def BorrowedElement.as_any_int (e : BorrowedElement) : Option AnyInt :=
  match e.value with
  | .Integer i => some i
  | _ => none

/-- `BorrowedElement::as_str` (`Element` trait). -/
def BorrowedElement.as_str (e : BorrowedElement) : Option String :=
  match e.value with
  | .String text => some text
  | .Symbol sym => sym.text
  | _ => none

/-- `BorrowedElement::as_sym` (`Element` trait). -/
def BorrowedElement.as_sym (e : BorrowedElement) : Option BorrowedSymbolToken :=
  match e.value with
  | .Symbol sym => some sym
  | _ => none

/-- `BorrowedElement::as_sequence` (`Element` trait): the source matches
`SExpression(seq) | List(seq)` in a single or-pattern. -/
def BorrowedElement.as_sequence (e : BorrowedElement) : Option BorrowedSequence :=
  match e.value with
  | .SExpression seq => some seq
  | .List seq => some seq
  | _ => none

/-- `BorrowedElement::as_struct` (`Element` trait). -/
def BorrowedElement.as_struct (e : BorrowedElement) : Option BorrowedStruct :=
  match e.value with
  | .Struct structure_ => some structure_
  | _ => none

/-- C1: for every constructed element, `ion_type` returns the categorical
type tag corresponding to the value variant used at construction, for all
seven variant kinds; for `Null t` the embedded tag `t` itself is returned. -/
theorem C1_ion_type_matches_construction_variant :
    (∀ a t, (BorrowedElement.new a (.Null t)).ion_type = t) ∧
    (∀ a i, (BorrowedElement.new a (.Integer i)).ion_type = IonType.Integer) ∧
    (∀ a s, (BorrowedElement.new a (.String s)).ion_type = IonType.String) ∧
    (∀ a tok, (BorrowedElement.new a (.Symbol tok)).ion_type = IonType.Symbol) ∧
    (∀ a sq, (BorrowedElement.new a (.SExpression sq)).ion_type = IonType.SExpression) ∧
    (∀ a sq, (BorrowedElement.new a (.List sq)).ion_type = IonType.List) ∧
    (∀ a st, (BorrowedElement.new a (.Struct st)).ion_type = IonType.Struct) :=
  ⟨fun _ _ => rfl, fun _ _ => rfl, fun _ _ => rfl, fun _ _ => rfl,
   fun _ _ => rfl, fun _ _ => rfl, fun _ _ => rfl⟩

/-- C2: `is_null` is true exactly when the element was constructed from the
`Null` variant, whatever tag that `Null` embeds; in particular an element
built from `Null String` has `is_null = true` and `ion_type = String`. -/
theorem C2_is_null_iff_null_variant :
    (∀ a v, (BorrowedElement.new a v).is_null = true ↔ ∃ t, v = BorrowedValue.Null t) ∧
    (∀ a, (BorrowedElement.new a (.Null IonType.String)).is_null = true ∧
      (BorrowedElement.new a (.Null IonType.String)).ion_type = IonType.String) := by
  refine ⟨fun a v => ?_, fun a => ⟨rfl, rfl⟩⟩
  cases v <;>
    simp [BorrowedElement.new, BorrowedElement.is_null, BorrowedElement.value]

/-- C3: `as_str` returns the literal text for a `String` value; for a
`Symbol` value it returns the token's `text` facet, hence the text when
one is present and none when the token is textless; it returns none for
every other variant. -/
theorem C3_as_str_characterization :
    (∀ a s, (BorrowedElement.new a (.String s)).as_str = some s) ∧
    (∀ a tok, (BorrowedElement.new a (.Symbol tok)).as_str = tok.text) ∧
    (∀ a s lsid src,
      (BorrowedElement.new a (.Symbol (BorrowedSymbolToken.new (some s) lsid src))).as_str =
        some s) ∧
    (∀ a lsid src,
      (BorrowedElement.new a (.Symbol (BorrowedSymbolToken.new none lsid src))).as_str =
        none) ∧
    (∀ a t, (BorrowedElement.new a (.Null t)).as_str = none) ∧
    (∀ a i, (BorrowedElement.new a (.Integer i)).as_str = none) ∧
    (∀ a sq, (BorrowedElement.new a (.SExpression sq)).as_str = none) ∧
    (∀ a sq, (BorrowedElement.new a (.List sq)).as_str = none) ∧
    (∀ a st, (BorrowedElement.new a (.Struct st)).as_str = none) :=
  ⟨fun _ _ => rfl, fun _ _ => rfl, fun _ _ _ _ => rfl, fun _ _ _ => rfl,
   fun _ _ => rfl, fun _ _ => rfl, fun _ _ => rfl, fun _ _ => rfl, fun _ _ => rfl⟩

/-- C4: a sequence constructed from a list of children iterates exactly
those children in construction order, the number of yielded items equals
the number supplied, and iteration is restartable: repeated calls on the
same (non-consumed) sequence yield the same items in the same order. -/
theorem C4_sequence_iter_order_cardinality_restartable :
    ∀ cs : List BorrowedElement,
      (BorrowedSequence.new cs).iter = cs ∧
      ((BorrowedSequence.new cs).iter).length = cs.length ∧
      (BorrowedSequence.new cs).iter = (BorrowedSequence.new cs).iter :=
  fun _ => ⟨rfl, rfl, rfl⟩

/-- C5: a struct constructed from a list of (token, element) field pairs
iterates exactly those pairs in insertion order, duplicate names intact,
and the number of yielded pairs equals the number supplied; scenario C
(two fields both named "a") yields both pairs in order. -/
theorem C5_struct_iter_order_duplicates_cardinality :
    (∀ fs : List (BorrowedSymbolToken × BorrowedElement),
      (BorrowedStruct.new fs).iter = fs ∧
      ((BorrowedStruct.new fs).iter).length = fs.length) ∧
    (BorrowedStruct.new
      [(BorrowedSymbolToken.fromText "a", BorrowedElement.fromValue (.Integer 1)),
       (BorrowedSymbolToken.fromText "a", BorrowedElement.fromValue (.Integer 2))]).iter =
      [(BorrowedSymbolToken.fromText "a", BorrowedElement.fromValue (.Integer 1)),
       (BorrowedSymbolToken.fromText "a", BorrowedElement.fromValue (.Integer 2))] := by
  refine ⟨fun fs => ?_, rfl⟩
  have h : (BorrowedStruct.new fs).iter = fs := by
    simp [BorrowedStruct.iter, BorrowedStruct.new, BorrowedStruct.fields]
  exact ⟨h, by rw [h]⟩

/-- C6: `annotations` yields exactly the tokens attached at construction,
in attachment order, and an element built from a value alone (the
value-to-element conversion) has an empty annotations sequence. -/
theorem C6_annotations_order_and_empty_default :
    (∀ a v, (BorrowedElement.new a v).annotationsIter = a) ∧
    (∀ v, (BorrowedElement.fromValue v).annotationsIter = []) :=
  ⟨fun _ _ => rfl, fun _ => rfl⟩

/-- C7: round trip — constructing an element from an annotation list and a
value, then reading `ion_type`, `annotations` and the narrowing accessor
matching the value's variant, reproduces the original tag, payload and
annotation list, for every payload-carrying variant. -/
theorem C7_construction_roundtrip :
    (∀ a i, (BorrowedElement.new a (.Integer i)).ion_type = IonType.Integer ∧
      (BorrowedElement.new a (.Integer i)).annotationsIter = a ∧
      (BorrowedElement.new a (.Integer i)).as_any_int = some i) ∧
    (∀ a s, (BorrowedElement.new a (.String s)).ion_type = IonType.String ∧
      (BorrowedElement.new a (.String s)).annotationsIter = a ∧
      (BorrowedElement.new a (.String s)).as_str = some s) ∧
    (∀ a tok, (BorrowedElement.new a (.Symbol tok)).ion_type = IonType.Symbol ∧
      (BorrowedElement.new a (.Symbol tok)).annotationsIter = a ∧
      (BorrowedElement.new a (.Symbol tok)).as_sym = some tok) ∧
    (∀ a sq, (BorrowedElement.new a (.List sq)).ion_type = IonType.List ∧
      (BorrowedElement.new a (.List sq)).annotationsIter = a ∧
      (BorrowedElement.new a (.List sq)).as_sequence = some sq) ∧
    (∀ a sq, (BorrowedElement.new a (.SExpression sq)).ion_type = IonType.SExpression ∧
      (BorrowedElement.new a (.SExpression sq)).annotationsIter = a ∧
      (BorrowedElement.new a (.SExpression sq)).as_sequence = some sq) ∧
    (∀ a st, (BorrowedElement.new a (.Struct st)).ion_type = IonType.Struct ∧
      (BorrowedElement.new a (.Struct st)).annotationsIter = a ∧
      (BorrowedElement.new a (.Struct st)).as_struct = some st) ∧
    (∀ a t, (BorrowedElement.new a (.Null t)).ion_type = t ∧
      (BorrowedElement.new a (.Null t)).annotationsIter = a ∧
      (BorrowedElement.new a (.Null t)).is_null = true) :=
  ⟨fun _ _ => ⟨rfl, rfl, rfl⟩, fun _ _ => ⟨rfl, rfl, rfl⟩, fun _ _ => ⟨rfl, rfl, rfl⟩,
   fun _ _ => ⟨rfl, rfl, rfl⟩, fun _ _ => ⟨rfl, rfl, rfl⟩, fun _ _ => ⟨rfl, rfl, rfl⟩,
   fun _ _ => ⟨rfl, rfl, rfl⟩⟩

/-- C8 counterexample: the claim as stated fails for `as_str`. An element
whose value is the `Symbol` variant (not the `String` variant) with token
text "foo" has `as_str = some "foo"`, not the claimed none, so `as_str`
does not return none on every variant other than its matching `String`. -/
theorem C8_counterexample_as_str_on_symbol :
    (BorrowedElement.new [] (.Symbol (BorrowedSymbolToken.fromText "foo"))).value =
      BorrowedValue.Symbol (BorrowedSymbolToken.fromText "foo") ∧
    (BorrowedElement.new [] (.Symbol (BorrowedSymbolToken.fromText "foo"))).as_str =
      some "foo" ∧
    (some "foo" : Option String) ≠ none :=
  ⟨rfl, rfl, by decide⟩

/-- C8 (amended): every narrowing accessor is total — embedded as a total
Lean function — and returns the payload on its matching variant and none
on every other variant, except that `as_str` additionally returns the
symbol token's text on a `Symbol` variant whose token carries text (and
none on a textless one). Stated exhaustively per accessor and variant. -/
theorem C8_accessors_total_never_fault :
    (∀ a i, (BorrowedElement.new a (.Integer i)).as_any_int = some i) ∧
    (∀ a t, (BorrowedElement.new a (.Null t)).as_any_int = none) ∧
    (∀ a s, (BorrowedElement.new a (.String s)).as_any_int = none) ∧
    (∀ a tok, (BorrowedElement.new a (.Symbol tok)).as_any_int = none) ∧
    (∀ a sq, (BorrowedElement.new a (.SExpression sq)).as_any_int = none) ∧
    (∀ a sq, (BorrowedElement.new a (.List sq)).as_any_int = none) ∧
    (∀ a st, (BorrowedElement.new a (.Struct st)).as_any_int = none) ∧
    (∀ a s, (BorrowedElement.new a (.String s)).as_str = some s) ∧
    (∀ a tok, (BorrowedElement.new a (.Symbol tok)).as_str = tok.text) ∧
    (∀ a t, (BorrowedElement.new a (.Null t)).as_str = none) ∧
    (∀ a i, (BorrowedElement.new a (.Integer i)).as_str = none) ∧
    (∀ a sq, (BorrowedElement.new a (.SExpression sq)).as_str = none) ∧
    (∀ a sq, (BorrowedElement.new a (.List sq)).as_str = none) ∧
    (∀ a st, (BorrowedElement.new a (.Struct st)).as_str = none) ∧
    (∀ a tok, (BorrowedElement.new a (.Symbol tok)).as_sym = some tok) ∧
    (∀ a t, (BorrowedElement.new a (.Null t)).as_sym = none) ∧
    (∀ a i, (BorrowedElement.new a (.Integer i)).as_sym = none) ∧
    (∀ a s, (BorrowedElement.new a (.String s)).as_sym = none) ∧
    (∀ a sq, (BorrowedElement.new a (.SExpression sq)).as_sym = none) ∧
    (∀ a sq, (BorrowedElement.new a (.List sq)).as_sym = none) ∧
    (∀ a st, (BorrowedElement.new a (.Struct st)).as_sym = none) ∧
    (∀ a sq, (BorrowedElement.new a (.List sq)).as_sequence = some sq) ∧
    (∀ a sq, (BorrowedElement.new a (.SExpression sq)).as_sequence = some sq) ∧
    (∀ a t, (BorrowedElement.new a (.Null t)).as_sequence = none) ∧
    (∀ a i, (BorrowedElement.new a (.Integer i)).as_sequence = none) ∧
    (∀ a s, (BorrowedElement.new a (.String s)).as_sequence = none) ∧
    (∀ a tok, (BorrowedElement.new a (.Symbol tok)).as_sequence = none) ∧
    (∀ a st, (BorrowedElement.new a (.Struct st)).as_sequence = none) ∧
    (∀ a st, (BorrowedElement.new a (.Struct st)).as_struct = some st) ∧
    (∀ a t, (BorrowedElement.new a (.Null t)).as_struct = none) ∧
    (∀ a i, (BorrowedElement.new a (.Integer i)).as_struct = none) ∧
    (∀ a s, (BorrowedElement.new a (.String s)).as_struct = none) ∧
    (∀ a tok, (BorrowedElement.new a (.Symbol tok)).as_struct = none) ∧
    (∀ a sq, (BorrowedElement.new a (.SExpression sq)).as_struct = none) ∧
    (∀ a sq, (BorrowedElement.new a (.List sq)).as_struct = none) :=
  ⟨fun _ _ => rfl, fun _ _ => rfl, fun _ _ => rfl, fun _ _ => rfl, fun _ _ => rfl,
   fun _ _ => rfl, fun _ _ => rfl, fun _ _ => rfl, fun _ _ => rfl, fun _ _ => rfl,
   fun _ _ => rfl, fun _ _ => rfl, fun _ _ => rfl, fun _ _ => rfl, fun _ _ => rfl,
   fun _ _ => rfl, fun _ _ => rfl, fun _ _ => rfl, fun _ _ => rfl, fun _ _ => rfl,
   fun _ _ => rfl, fun _ _ => rfl, fun _ _ => rfl, fun _ _ => rfl, fun _ _ => rfl,
   fun _ _ => rfl, fun _ _ => rfl, fun _ _ => rfl, fun _ _ => rfl, fun _ _ => rfl,
   fun _ _ => rfl, fun _ _ => rfl, fun _ _ => rfl, fun _ _ => rfl, fun _ _ => rfl⟩

/-- C9: construction is total and unconditional — token construction and
element construction store every input unchanged with no validation; in
particular the unresolved token (neither text nor local id) is accepted
unchanged both on its own and inside an element. -/
theorem C9_construction_unconditional_no_validation :
    (∀ text lsid src, (BorrowedSymbolToken.new text lsid src).text = text ∧
      (BorrowedSymbolToken.new text lsid src).local_sid = lsid ∧
      (BorrowedSymbolToken.new text lsid src).source = src) ∧
    (∀ a v, (BorrowedElement.new a v).annots = a ∧ (BorrowedElement.new a v).value = v) ∧
    ((BorrowedSymbolToken.new none none none).text = none ∧
      (BorrowedSymbolToken.new none none none).local_sid = none) ∧
    (∀ a, (BorrowedElement.new a (.Symbol (BorrowedSymbolToken.new none none none))).as_sym =
      some (BorrowedSymbolToken.new none none none)) :=
  ⟨fun _ _ _ => ⟨rfl, rfl, rfl⟩, fun _ _ => ⟨rfl, rfl⟩, ⟨rfl, rfl⟩, fun _ => rfl⟩

/-- C10: `as_sequence` returns the underlying sequence for both the `List`
and the `SExpression` variant — with identical results on the same
sequence — and none for every other variant; the list-versus-expression
distinction remains observable through `ion_type`, which yields two
distinct tags. -/
theorem C10_as_sequence_covers_both_sequence_variants :
    (∀ a sq, (BorrowedElement.new a (.List sq)).as_sequence = some sq) ∧
    (∀ a sq, (BorrowedElement.new a (.SExpression sq)).as_sequence = some sq) ∧
    (∀ a sq, (BorrowedElement.new a (.List sq)).as_sequence =
      (BorrowedElement.new a (.SExpression sq)).as_sequence) ∧
    (∀ a sq, (BorrowedElement.new a (.List sq)).ion_type = IonType.List ∧
      (BorrowedElement.new a (.SExpression sq)).ion_type = IonType.SExpression) ∧
    IonType.List ≠ IonType.SExpression ∧
    (∀ a t, (BorrowedElement.new a (.Null t)).as_sequence = none) ∧
    (∀ a i, (BorrowedElement.new a (.Integer i)).as_sequence = none) ∧
    (∀ a s, (BorrowedElement.new a (.String s)).as_sequence = none) ∧
    (∀ a tok, (BorrowedElement.new a (.Symbol tok)).as_sequence = none) ∧
    (∀ a st, (BorrowedElement.new a (.Struct st)).as_sequence = none) :=
  ⟨fun _ _ => rfl, fun _ _ => rfl, fun _ _ => rfl, fun _ _ => ⟨rfl, rfl⟩, by decide,
   fun _ _ => rfl, fun _ _ => rfl, fun _ _ => rfl, fun _ _ => rfl, fun _ _ => rfl⟩
